import Mathlib

/-!
Shallow embedding of the browser-agent repository (package browser_agent_final):
the data model of classes.py, the session lifecycle of session.py, and the five
action tools of browser_tools.py.  External calls (the Stagehand client, the page
object) are black boxes, modelled by oracle values supplied per invocation; a
Python exception is a PyExc value, and fallible code returns Except PyExc.
-/

/-- Python exception value, reduced to what the code observes: the message
returned by str(e).  Attribute lookup failures on the ActionType enum class are
kept separate from errors raised by the browser library or the session. -/
inductive PyExc
  | attributeError (name : String)
  | libError (msg : String)
deriving DecidableEq, Repr

/-- The text str(e) of a Python exception; for AttributeError(name) this is the
bare attribute name. -/
def PyExc.msg : PyExc → String
  | .attributeError n => n
  | .libError m => m

/-- Enumeration ActionType of classes.py: exactly the three members NAVIGATE,
CLICK and TYPE are defined there. -/
inductive ActionType
  | NAVIGATE
  | CLICK
  | TYPE
deriving DecidableEq, Repr

/-- The string value of each ActionType member (classes.py declares it as a str
enum, and the pydantic field action_type is a plain str). -/
def ActionType.value : ActionType → String
  | .NAVIGATE => "navigate"
  | .CLICK => "click"
  | .TYPE => "type"

/-- Python attribute access ActionType.<name>: a defined member is returned,
any other name raises AttributeError(name).  browser_tools.py accesses the
members only through this mechanism. -/
def ActionType.attr : String → Except PyExc ActionType
  | "NAVIGATE" => .ok .NAVIGATE
  | "CLICK" => .ok .CLICK
  | "TYPE" => .ok .TYPE
  | n => .error (.attributeError n)

/-- An element descriptor returned by page.observe, opaque to this code (it is
only counted and stored). -/
abbrev Element := String

/-- The value returned by page.extract, opaque to this code. -/
abbrev Extracted := String

/-- The result object returned by page.act: the code reads result.success,
result.message and result.action. -/
structure ActResult where
  success : Bool
  message : Option String
  action : Option String
deriving DecidableEq, Repr

/-- The run-time value stored in the result_data field (Optional[Any] in the
source): an act result, an element list from observe, or an extract result. -/
inductive ResultData
  | act (r : ActResult)
  | elements (es : List Element)
  | extracted (x : Extracted)
deriving DecidableEq, Repr

/-- Pydantic model ExecutionAction of classes.py (the ActionResult of the
spec), field for field. -/
structure ExecutionAction where
  current_url : Option String
  page_title : Option String
  success : Bool
  action_type : String
  instruction : Option String
  execution_details : Option String
  page_changed : Bool
  result_data : Option ResultData
  action_taken : Option String
deriving DecidableEq, Repr

deriving instance DecidableEq for Except

/-- Oracle for one page handle during one tool invocation.  url is the value of
the first read of page.url in the invocation; urlAfter is the value of reads of
page.url made after page.act returned (the code reads it twice there with no
await in between, so a single value is faithful).  The remaining fields are the
outcomes of the awaited page calls. -/
structure Page where
  url : String
  urlAfter : String
  title : Except PyExc String
  goto : Except PyExc Unit
  act : Except PyExc ActResult
  observe : Except PyExc (List Element)
  extract : Except PyExc Extracted
deriving DecidableEq, Repr

/-- Oracle for one tool invocation: the outcome of browser_session.get_page()
in the try block and, separately, in the except block (the code calls it again
there). -/
structure ToolWorld where
  getPage : Except PyExc Page
  getPageRetry : Except PyExc Page
deriving DecidableEq, Repr

/-- Try block of navigate_to: get the page, await page.goto(url), sleep, then
build the success ExecutionAction (page.title is awaited before the
ActionType.NAVIGATE lookup, following keyword order in the source). -/
def navigate_try (w : ToolWorld) (url : String) : Except PyExc ExecutionAction := do
  let page ← w.getPage
  let _ ← page.goto
  let t ← page.title
  let a ← ActionType.attr "NAVIGATE"
  pure { current_url := some page.url
         page_title := some t
         success := true
         action_type := a.value
         instruction := some ("navigate to " ++ url)
         execution_details := none
         page_changed := true
         result_data := none
         action_taken := none }

/-- Except block of navigate_to: builds the failure ExecutionAction with both
current_url and page_title set to None and detail str(e). -/
def navigate_handler (url : String) (e : PyExc) : Except PyExc ExecutionAction := do
  let a ← ActionType.attr "NAVIGATE"
  pure { current_url := none
         page_title := none
         success := false
         action_type := a.value
         instruction := some ("navigate to " ++ url)
         execution_details := some e.msg
         page_changed := false
         result_data := none
         action_taken := none }

/-- Tool navigate_to of browser_tools.py. -/
def navigate_to (w : ToolWorld) (url : String) : Except PyExc ExecutionAction :=
  match navigate_try w url with
  | .ok r => .ok r
  | .error e => navigate_handler url e

/-- Try block of click_element: read page.url before page.act and again after,
and report page_changed as the inequality of the two reads; success, message,
result object and action are taken from the act result. -/
def click_try (w : ToolWorld) (instr : String) : Except PyExc ExecutionAction := do
  let page ← w.getPage
  let urlBefore := page.url
  let result ← page.act
  let urlAfter := page.urlAfter
  let changed := urlBefore != urlAfter
  let t ← page.title
  let a ← ActionType.attr "CLICK"
  pure { current_url := some page.urlAfter
         page_title := some t
         success := result.success
         action_type := a.value
         instruction := some instr
         execution_details := result.message
         page_changed := changed
         result_data := some (.act result)
         action_taken := result.action }

/-- Except block of click_element: it calls browser_session.get_page() again
and reads page.url and page.title from that page, so it itself raises when the
page handle cannot be obtained. -/
def click_handler (w : ToolWorld) (instr : String) (e : PyExc) :
    Except PyExc ExecutionAction := do
  let page ← w.getPageRetry
  let t ← page.title
  let a ← ActionType.attr "CLICK"
  pure { current_url := some page.url
         page_title := some t
         success := false
         action_type := a.value
         instruction := some instr
         execution_details := some e.msg
         page_changed := false
         result_data := none
         action_taken := none }

/-- Tool click_element of browser_tools.py. -/
def click_element (w : ToolWorld) (instr : String) : Except PyExc ExecutionAction :=
  match click_try w instr with
  | .ok r => .ok r
  | .error e => click_handler w instr e

/-- Try block of type_text: same call pattern as click but page_changed is the
literal False and no URL comparison is made. -/
def type_try (w : ToolWorld) (instr : String) : Except PyExc ExecutionAction := do
  let page ← w.getPage
  let result ← page.act
  let t ← page.title
  let a ← ActionType.attr "TYPE"
  pure { current_url := some page.urlAfter
         page_title := some t
         success := result.success
         action_type := a.value
         instruction := some instr
         execution_details := result.message
         page_changed := false
         result_data := some (.act result)
         action_taken := result.action }

/-- Except block of type_text: like click, it re-obtains the page and reads
url and title from it. -/
def type_handler (w : ToolWorld) (instr : String) (e : PyExc) :
    Except PyExc ExecutionAction := do
  let page ← w.getPageRetry
  let t ← page.title
  let a ← ActionType.attr "TYPE"
  pure { current_url := some page.url
         page_title := some t
         success := false
         action_type := a.value
         instruction := some instr
         execution_details := some e.msg
         page_changed := false
         result_data := none
         action_taken := none }

/-- Tool type_text of browser_tools.py. -/
def type_text (w : ToolWorld) (instr : String) : Except PyExc ExecutionAction :=
  match type_try w instr with
  | .ok r => .ok r
  | .error e => type_handler w instr e

/-- Try block of observe_page: enumerate elements, then build the success
record; page.title is awaited before the ActionType.OBSERVE attribute lookup
(keyword order), and that lookup raises because classes.py defines no OBSERVE
member. -/
def observe_try (w : ToolWorld) (instr : String) : Except PyExc ExecutionAction := do
  let page ← w.getPage
  let elements ← page.observe
  let t ← page.title
  let a ← ActionType.attr "OBSERVE"
  pure { current_url := some page.url
         page_title := some t
         success := true
         action_type := a.value
         instruction := some instr
         execution_details :=
           some ("Found " ++ toString elements.length ++ " observable elements on the page")
         page_changed := false
         result_data := some (.elements elements)
         action_taken := some ("Observed page elements with instruction: " ++ instr) }

/-- Except block of observe_page: re-obtains the page, awaits page.title, then
performs the same ActionType.OBSERVE lookup, which raises again. -/
def observe_handler (w : ToolWorld) (instr : String) (e : PyExc) :
    Except PyExc ExecutionAction := do
  let page ← w.getPageRetry
  let t ← page.title
  let a ← ActionType.attr "OBSERVE"
  pure { current_url := some page.url
         page_title := some t
         success := false
         action_type := a.value
         instruction := some instr
         execution_details := some e.msg
         page_changed := false
         result_data := none
         action_taken := none }

/-- Tool observe_page of browser_tools.py. -/
def observe_page (w : ToolWorld) (instr : String) : Except PyExc ExecutionAction :=
  match observe_try w instr with
  | .ok r => .ok r
  | .error e => observe_handler w instr e

/-- Try block of extract_page: extracts data, then performs the
ActionType.EXTRACT lookup, which raises because classes.py defines no EXTRACT
member. -/
def extract_try (w : ToolWorld) (instr : String) : Except PyExc ExecutionAction := do
  let page ← w.getPage
  let x ← page.extract
  let t ← page.title
  let a ← ActionType.attr "EXTRACT"
  pure { current_url := some page.url
         page_title := some t
         success := true
         action_type := a.value
         instruction := some instr
         execution_details := some "Extracted data from the page"
         page_changed := false
         result_data := some (.extracted x)
         action_taken := some ("Extracted data from the page with instruction: " ++ instr) }

/-- Except block of extract_page: re-obtains the page, then performs the same
failing ActionType.EXTRACT lookup. -/
def extract_handler (w : ToolWorld) (instr : String) (e : PyExc) :
    Except PyExc ExecutionAction := do
  let page ← w.getPageRetry
  let t ← page.title
  let a ← ActionType.attr "EXTRACT"
  pure { current_url := some page.url
         page_title := some t
         success := false
         action_type := a.value
         instruction := some instr
         execution_details := some e.msg
         page_changed := false
         result_data := none
         action_taken := none }

/-- Tool extract_page of browser_tools.py. -/
def extract_page (w : ToolWorld) (instr : String) : Except PyExc ExecutionAction :=
  match extract_try w instr with
  | .ok r => .ok r
  | .error e => extract_handler w instr e

/-- True when an invocation ends with a raised exception instead of a returned
ExecutionAction. -/
def raises (x : Except PyExc ExecutionAction) : Bool :=
  match x with
  | .error _ => true
  | .ok _ => false

/-- The value of the module attribute list in browser_tools.py. -/
def browser_tools_all : List String :=
  ["navigate_to", "click_element", "type_text", "observe_page", "extract_page"]

/-- The tool list assembled by create_browser_agent in core_agent.py. -/
def agent_tools : List String :=
  ["navigate_to", "click_element", "type_text", "observe_page"]

/-- Abstract page handle held by the session (compared only by identity). -/
abbrev PageHandle := Nat

/-- The Stagehand client object as the session sees it: after construction it
exposes a page attribute, which the edge-case tests allow to be absent. -/
structure Stagehand where
  page : Option PageHandle
deriving DecidableEq, Repr

/-- Mutable state of BrowserSession (session.py): the stagehand and page
references, each absent until first use.  The config is immutable and does not
influence the control flow modelled here. -/
structure BrowserSession where
  stagehand : Option Stagehand
  page : Option PageHandle
deriving DecidableEq, Repr

/-- Initial state of a BrowserSession: both references absent. -/
def BrowserSession.initial : BrowserSession := { stagehand := none, page := none }

/-- Oracle for the external calls one get_page() execution can make: the
Stagehand constructor either raises, or returns a client whose startup
handshake init() raises, or returns a client whose init() succeeds. -/
inductive StagehandBehavior
  | ctorRaises (e : PyExc)
  | initRaises (c : Stagehand) (e : PyExc)
  | initOk (c : Stagehand)
deriving DecidableEq, Repr

/-- What one get_page() execution produced: the returned page reference or the
raised exception, the session state afterwards, and whether the Stagehand
constructor and the init() handshake were invoked. -/
structure GetPageOutcome where
  result : Except PyExc (Option PageHandle)
  state : BrowserSession
  ctorCalled : Bool
  initCalled : Bool
deriving DecidableEq, Repr

/-- BrowserSession.get_page of session.py.  When self.stagehand is None the
client is constructed (assigned to self.stagehand only after the constructor
returns), init() is awaited, and self.page is set from the client; afterwards
self.page is returned.  When self.stagehand is already set, self.page is
returned as is, with no construction and no handshake.  Exceptions from the
constructor or from init() are not caught here. -/
def BrowserSession.get_page (beh : StagehandBehavior) (s : BrowserSession) :
    GetPageOutcome :=
  if s.stagehand.isNone then
    match beh with
    | .ctorRaises e => { result := .error e, state := s, ctorCalled := true, initCalled := false }
    | .initRaises c e =>
        { result := .error e
          state := { s with stagehand := some c }
          ctorCalled := true
          initCalled := true }
    | .initOk c =>
        { result := .ok c.page
          state := { stagehand := some c, page := c.page }
          ctorCalled := true
          initCalled := true }
  else
    { result := .ok s.page, state := s, ctorCalled := false, initCalled := false }

/-- What one close() execution produced: the raised exception if any, and the
session state afterwards. -/
structure CloseOutcome where
  result : Except PyExc Unit
  state : BrowserSession
deriving DecidableEq, Repr

/-- BrowserSession.close of session.py: when a client exists its shutdown is
awaited inside try/finally, so both references are cleared whether or not the
shutdown raised, and the exception (if any) propagates; when no client exists
both references are (re)set to None and nothing raises.  closeCall is the
oracle outcome of awaiting self.stagehand.close(). -/
def BrowserSession.close (closeCall : Except PyExc Unit) (s : BrowserSession) :
    CloseOutcome :=
  if s.stagehand.isSome then
    match closeCall with
    | .ok _ => { result := .ok (), state := { stagehand := none, page := none } }
    | .error e => { result := .error e, state := { stagehand := none, page := none } }
  else
    { result := .ok (), state := { stagehand := none, page := none } }

/-- BrowserSession.is_active of session.py. -/
def BrowserSession.is_active (s : BrowserSession) : Bool :=
  s.stagehand.isSome && s.page.isSome

/-- The session invariant stated by the spec: the client and page references
are either both absent or both present. -/
def BrowserSession.bothOrNeither (s : BrowserSession) : Prop :=
  s.stagehand.isSome = s.page.isSome

instance (s : BrowserSession) : Decidable s.bothOrNeither := by
  unfold BrowserSession.bothOrNeither
  infer_instance

/-- Iterated get_page calls: thread the session state through a list of
per-call behaviors. -/
def get_page_iter : List StagehandBehavior → BrowserSession → BrowserSession
  | [], s => s
  | b :: bs, s => get_page_iter bs (BrowserSession.get_page b s).state

/-- A successful act result as the mocked library returns it. -/
def okActResult : ActResult :=
  { success := true, message := some "Clicked successfully", action := some "click button" }

/-- A fully healthy page: every call succeeds and the URL never changes;
observe finds three elements. -/
def pageBenign : Page :=
  { url := "https://example.com"
    urlAfter := "https://example.com"
    title := .ok "Test Page"
    goto := .ok ()
    act := .ok okActResult
    observe := .ok ["button#submit", "input#username", "a.nav-link"]
    extract := .ok "data" }

/-- A world where both get_page calls return the healthy page. -/
def worldBenign : ToolWorld :=
  { getPage := .ok pageBenign, getPageRetry := .ok pageBenign }

/-- A page whose navigation call raises while the handle itself stays fully
reachable (url and title still answer). -/
def pageGotoFails : Page :=
  { url := "https://x.com"
    urlAfter := "https://x.com"
    title := .ok "X"
    goto := .error (.libError "Navigation timeout")
    act := .ok okActResult
    observe := .ok []
    extract := .ok "data" }

/-- World around pageGotoFails. -/
def worldGotoFails : ToolWorld :=
  { getPage := .ok pageGotoFails, getPageRetry := .ok pageGotoFails }

/-- Act result of a click that navigated. -/
def clickNavAct : ActResult :=
  { success := true, message := some "Navigation occurred", action := some "click link" }

/-- A page where the click changes the URL. -/
def pageClickNav : Page :=
  { url := "https://a.com"
    urlAfter := "https://a.com/done"
    title := .ok "Done"
    goto := .ok ()
    act := .ok clickNavAct
    observe := .ok []
    extract := .ok "data" }

/-- World around pageClickNav. -/
def worldClickNav : ToolWorld :=
  { getPage := .ok pageClickNav, getPageRetry := .ok pageClickNav }

/-- A page whose act call raises. -/
def pageActFails : Page :=
  { url := "https://a.com"
    urlAfter := "https://a.com"
    title := .ok "A"
    goto := .ok ()
    act := .error (.libError "act timeout")
    observe := .ok []
    extract := .ok "data" }

/-- World where act raises in the try block and the except block reaches the
healthy page. -/
def worldActFails : ToolWorld :=
  { getPage := .ok pageActFails, getPageRetry := .ok pageBenign }

/-- The ExecutionAction click_element returns in worldActFails. -/
def clickFailResult : ExecutionAction :=
  { current_url := some "https://example.com"
    page_title := some "Test Page"
    success := false
    action_type := "click"
    instruction := some "click the submit button"
    execution_details := some "act timeout"
    page_changed := false
    result_data := none
    action_taken := none }

/-- The ExecutionAction navigate_to returns in worldGotoFails. -/
def navFailRes : ExecutionAction :=
  { current_url := none
    page_title := none
    success := false
    action_type := "navigate"
    instruction := some "navigate to https://x.com"
    execution_details := some "Navigation timeout"
    page_changed := false
    result_data := none
    action_taken := none }

/-- The ExecutionAction click_element returns in worldBenign. -/
def clickOkRes : ExecutionAction :=
  { current_url := some "https://example.com"
    page_title := some "Test Page"
    success := true
    action_type := "click"
    instruction := some "click the submit button"
    execution_details := some "Clicked successfully"
    page_changed := false
    result_data := some (.act okActResult)
    action_taken := some "click button" }

/-- The ExecutionAction type_text returns in worldBenign. -/
def typeOkRes : ExecutionAction :=
  { current_url := some "https://example.com"
    page_title := some "Test Page"
    success := true
    action_type := "type"
    instruction := some "type hello into the search box"
    execution_details := some "Clicked successfully"
    page_changed := false
    result_data := some (.act okActResult)
    action_taken := some "click button" }

theorem bindOk {α β : Type} (a : α) (f : α → Except PyExc β) :
    (Except.ok a >>= f) = f a := rfl

theorem bindErr {α β : Type} (e : PyExc) (f : α → Except PyExc β) :
    ((Except.error e : Except PyExc α) >>= f) = Except.error e := rfl

theorem pureOk {α : Type} (a : α) : (pure a : Except PyExc α) = Except.ok a := rfl

theorem attrNavigate : ActionType.attr "NAVIGATE" = .ok .NAVIGATE := rfl

theorem attrClick : ActionType.attr "CLICK" = .ok .CLICK := rfl

theorem attrType : ActionType.attr "TYPE" = .ok .TYPE := rfl

theorem attrObserve : ActionType.attr "OBSERVE" = .error (.attributeError "OBSERVE") := rfl

theorem attrExtract : ActionType.attr "EXTRACT" = .error (.attributeError "EXTRACT") := rfl

theorem get_page_iter_fixed (behs : List StagehandBehavior) (c : Stagehand)
    (p : Option PageHandle) :
    get_page_iter behs { stagehand := some c, page := p } =
      { stagehand := some c, page := p } := by
  induction behs with
  | nil => rfl
  | cons b bs ih => simpa [get_page_iter, BrowserSession.get_page] using ih

/-- C3 counterexample: the both-absent-or-both-present invariant does not hold
in every reachable state.  One get_page() from the initial state in which the
Stagehand constructor succeeds and init() raises leaves the client reference
present and the page reference absent. -/
theorem C3_counterexample :
    (BrowserSession.get_page
        (.initRaises { page := some 0 } (.libError "Initialization failed"))
        BrowserSession.initial).state.stagehand.isSome = true ∧
    (BrowserSession.get_page
        (.initRaises { page := some 0 } (.libError "Initialization failed"))
        BrowserSession.initial).state.page.isSome = false := by
  exact ⟨rfl, rfl⟩

/-- C3 amended: is_active is by definition the conjunction of the two presence
flags, and the both-absent-or-both-present invariant holds initially, after
every close(), and is preserved by get_page() executions that fail in the
constructor or that succeed with a client exposing a page; only an execution
whose init() raises after construction (or whose client exposes no page)
breaks it. -/
theorem C3_invariant_amended :
    (∀ s : BrowserSession, s.is_active = (s.stagehand.isSome && s.page.isSome)) ∧
    BrowserSession.bothOrNeither BrowserSession.initial ∧
    (∀ (clo : Except PyExc Unit) (s : BrowserSession),
        BrowserSession.bothOrNeither ((BrowserSession.close clo s).state)) ∧
    (∀ (e : PyExc) (s : BrowserSession), BrowserSession.bothOrNeither s →
        BrowserSession.bothOrNeither
          ((BrowserSession.get_page (.ctorRaises e) s).state)) ∧
    (∀ (c : Stagehand) (s : BrowserSession), c.page.isSome = true →
        BrowserSession.bothOrNeither s →
        BrowserSession.bothOrNeither
          ((BrowserSession.get_page (.initOk c) s).state)) := by
  refine ⟨fun s => rfl, rfl, fun clo s => ?_, fun e s h => ?_, fun c s hc h => ?_⟩
  · unfold BrowserSession.close
    by_cases hs : s.stagehand.isSome
    · cases clo <;> simp [hs, BrowserSession.bothOrNeither]
    · simp [hs, BrowserSession.bothOrNeither]
  · unfold BrowserSession.get_page
    by_cases hs : s.stagehand.isNone
    · simpa [hs] using h
    · simpa [hs] using h
  · unfold BrowserSession.get_page
    by_cases hs : s.stagehand.isNone
    · simp [hs, BrowserSession.bothOrNeither, hc]
    · simpa [hs] using h

/-- C3 witness: the preservation clauses of the amended invariant applied at
concrete inputs. -/
theorem C3_witness :
    BrowserSession.bothOrNeither
      ((BrowserSession.get_page (.initOk { page := some 1 })
          BrowserSession.initial).state) ∧
    BrowserSession.bothOrNeither
      ((BrowserSession.get_page (.ctorRaises (.libError "boom"))
          BrowserSession.initial).state) := by
  exact ⟨C3_invariant_amended.2.2.2.2 { page := some 1 } BrowserSession.initial
           (by decide) (by decide),
         C3_invariant_amended.2.2.2.1 (.libError "boom") BrowserSession.initial
           (by decide)⟩

/-- C7: close() leaves both references absent and the session inactive in every
case, whether or not the underlying shutdown raised, and it returns without
raising whenever no client exists. -/
theorem C7_close_cleanup :
    (∀ (clo : Except PyExc Unit) (s : BrowserSession),
        (BrowserSession.close clo s).state = { stagehand := none, page := none } ∧
        (BrowserSession.close clo s).state.is_active = false) ∧
    (∀ (clo : Except PyExc Unit) (s : BrowserSession), s.stagehand = none →
        (BrowserSession.close clo s).result = .ok ()) := by
  refine ⟨fun clo s => ?_, fun clo s h => ?_⟩
  · unfold BrowserSession.close
    by_cases hs : s.stagehand.isSome
    · cases clo <;> simp [hs, BrowserSession.is_active]
    · simp [hs, BrowserSession.is_active]
  · unfold BrowserSession.close
    simp [h]

/-- C7 witness: a shutdown that raises still ends inactive, and close() on the
initial state returns without raising. -/
theorem C7_witness :
    (BrowserSession.close (.error (.libError "Close failed"))
        { stagehand := some { page := some 2 }, page := some 2 }).state.is_active
      = false ∧
    (BrowserSession.close (.ok ()) BrowserSession.initial).result = .ok () := by
  exact ⟨(C7_close_cleanup.1 (.error (.libError "Close failed"))
            { stagehand := some { page := some 2 }, page := some 2 }).2,
         C7_close_cleanup.2 (.ok ()) BrowserSession.initial rfl⟩

/-- C8: after a first successful get_page(), any further sequence of get_page()
calls leaves the state unchanged and each call returns the cached page with
neither the Stagehand constructor nor init() invoked. -/
theorem C8_get_page_idempotent :
    ∀ (c : Stagehand) (behs : List StagehandBehavior) (beh2 : StagehandBehavior),
      (BrowserSession.get_page (.initOk c) BrowserSession.initial).result = .ok c.page ∧
      (BrowserSession.get_page (.initOk c) BrowserSession.initial).ctorCalled = true ∧
      BrowserSession.get_page beh2
          (get_page_iter behs
            (BrowserSession.get_page (.initOk c) BrowserSession.initial).state) =
        { result := .ok c.page
          state := (BrowserSession.get_page (.initOk c) BrowserSession.initial).state
          ctorCalled := false
          initCalled := false } := by
  intro c behs beh2
  refine ⟨rfl, rfl, ?_⟩
  have h : (BrowserSession.get_page (.initOk c) BrowserSession.initial).state =
      { stagehand := some c, page := c.page } := rfl
  rw [h, get_page_iter_fixed]
  rfl

/-- C9: when the constructor succeeds and init() raises, the exception
propagates, the client reference stays set while the page stays absent, and
every later get_page() before a close() returns None without invoking the
constructor or init() again. -/
theorem C9_init_failure_leaves_client :
    ∀ (c : Stagehand) (e : PyExc) (behs : List StagehandBehavior)
      (beh2 : StagehandBehavior),
      (BrowserSession.get_page (.initRaises c e) BrowserSession.initial).result =
        .error e ∧
      (BrowserSession.get_page (.initRaises c e) BrowserSession.initial).state =
        { stagehand := some c, page := none } ∧
      BrowserSession.get_page beh2
          (get_page_iter behs { stagehand := some c, page := none }) =
        { result := .ok none
          state := { stagehand := some c, page := none }
          ctorCalled := false
          initCalled := false } := by
  intro c e behs beh2
  refine ⟨rfl, rfl, ?_⟩
  rw [get_page_iter_fixed]
  rfl

theorem observe_try_is_error (w : ToolWorld) (i : String) :
    ∃ e, observe_try w i = .error e := by
  cases hg : w.getPage with
  | error e => exact ⟨e, by simp [observe_try, hg, bindErr]⟩
  | ok p =>
    cases ho : p.observe with
    | error e => exact ⟨e, by simp [observe_try, hg, ho, bindOk, bindErr]⟩
    | ok es =>
      cases ht : p.title with
      | error e => exact ⟨e, by simp [observe_try, hg, ho, ht, bindOk, bindErr]⟩
      | ok t =>
        exact ⟨.attributeError "OBSERVE",
          by simp [observe_try, hg, ho, ht, bindOk, bindErr, attrObserve]⟩

theorem observe_handler_is_error (w : ToolWorld) (i : String) (e : PyExc) :
    ∃ e2, observe_handler w i e = .error e2 := by
  cases hg : w.getPageRetry with
  | error e2 => exact ⟨e2, by simp [observe_handler, hg, bindErr]⟩
  | ok p =>
    cases ht : p.title with
    | error e2 => exact ⟨e2, by simp [observe_handler, hg, ht, bindOk, bindErr]⟩
    | ok t =>
      exact ⟨.attributeError "OBSERVE",
        by simp [observe_handler, hg, ht, bindOk, bindErr, attrObserve]⟩

theorem observe_page_is_error (w : ToolWorld) (i : String) :
    ∃ e, observe_page w i = .error e := by
  obtain ⟨e1, h1⟩ := observe_try_is_error w i
  obtain ⟨e2, h2⟩ := observe_handler_is_error w i e1
  exact ⟨e2, by simp [observe_page, h1, h2]⟩

theorem extract_try_is_error (w : ToolWorld) (i : String) :
    ∃ e, extract_try w i = .error e := by
  cases hg : w.getPage with
  | error e => exact ⟨e, by simp [extract_try, hg, bindErr]⟩
  | ok p =>
    cases hx : p.extract with
    | error e => exact ⟨e, by simp [extract_try, hg, hx, bindOk, bindErr]⟩
    | ok x =>
      cases ht : p.title with
      | error e => exact ⟨e, by simp [extract_try, hg, hx, ht, bindOk, bindErr]⟩
      | ok t =>
        exact ⟨.attributeError "EXTRACT",
          by simp [extract_try, hg, hx, ht, bindOk, bindErr, attrExtract]⟩

theorem extract_handler_is_error (w : ToolWorld) (i : String) (e : PyExc) :
    ∃ e2, extract_handler w i e = .error e2 := by
  cases hg : w.getPageRetry with
  | error e2 => exact ⟨e2, by simp [extract_handler, hg, bindErr]⟩
  | ok p =>
    cases ht : p.title with
    | error e2 => exact ⟨e2, by simp [extract_handler, hg, ht, bindOk, bindErr]⟩
    | ok t =>
      exact ⟨.attributeError "EXTRACT",
        by simp [extract_handler, hg, ht, bindOk, bindErr, attrExtract]⟩

theorem extract_page_is_error (w : ToolWorld) (i : String) :
    ∃ e, extract_page w i = .error e := by
  obtain ⟨e1, h1⟩ := extract_try_is_error w i
  obtain ⟨e2, h2⟩ := extract_handler_is_error w i e1
  exact ⟨e2, by simp [extract_page, h1, h2]⟩

/-- C1: the failure boundary does not hold for all four tools.  observe_page
raises on every input and in both of its branches, because the
ActionType.OBSERVE lookup fails; in particular on a fully healthy page the
AttributeError escapes to the caller instead of an ActionResult. -/
theorem C1_observe_always_raises :
    (∀ (w : ToolWorld) (i : String), raises (observe_page w i) = true) ∧
    observe_page worldBenign "find buttons" = .error (.attributeError "OBSERVE") := by
  constructor
  · intro w i
    obtain ⟨e, h⟩ := observe_page_is_error w i
    simp [raises, h]
  · rfl

/-- C2: the ActionType enumeration of classes.py has exactly the three values
navigate, click and type; the OBSERVE lookup used by observe_page raises, so
no result carrying an observe action kind is ever produced. -/
theorem C2_action_kind_enumeration :
    (∀ a : ActionType, a.value = "navigate" ∨ a.value = "click" ∨ a.value = "type") ∧
    ActionType.attr "OBSERVE" = .error (.attributeError "OBSERVE") ∧
    raises (observe_page worldBenign "find the search box") = true := by
  refine ⟨fun a => ?_, rfl, ?_⟩
  · cases a <;> simp [ActionType.value]
  · obtain ⟨e, h⟩ := observe_page_is_error worldBenign "find the search box"
    simp [raises, h]

/-- C4: even when page.observe succeeds and returns three elements, the
observe tool never returns the success ActionResult the claim describes: the
invocation raises AttributeError OBSERVE instead. -/
theorem C4_observe_success_unreachable :
    pageBenign.observe = .ok ["button#submit", "input#username", "a.nav-link"] ∧
    observe_page worldBenign "find all interactive elements" =
      .error (.attributeError "OBSERVE") := by
  exact ⟨rfl, rfl⟩

/-- C10: extract_page is exported as a fifth tool by browser_tools.py but not
given to the agent in core_agent.py; the ActionType.EXTRACT lookup in both of
its branches fails, so every invocation raises and none returns an
ExecutionAction. -/
theorem C10_extract_page_dead_tool :
    browser_tools_all.contains "extract_page" = true ∧
    agent_tools.contains "extract_page" = false ∧
    ActionType.attr "EXTRACT" = .error (.attributeError "EXTRACT") ∧
    (∀ (w : ToolWorld) (i : String), raises (extract_page w i) = true) := by
  refine ⟨by decide, by decide, rfl, ?_⟩
  intro w i
  obtain ⟨e, h⟩ := extract_page_is_error w i
  simp [raises, h]

theorem navigate_handler_eq (url : String) (e : PyExc) :
    navigate_handler url e = .ok
      { current_url := none, page_title := none, success := false,
        action_type := "navigate", instruction := some ("navigate to " ++ url),
        execution_details := some e.msg, page_changed := false,
        result_data := none, action_taken := none } := rfl

theorem navigate_try_success (w : ToolWorld) (url : String) (r : ExecutionAction)
    (h : navigate_try w url = .ok r) : r.success = true := by
  cases hg : w.getPage with
  | error e => simp [navigate_try, hg, bindErr] at h
  | ok p =>
    cases hgo : p.goto with
    | error e => simp [navigate_try, hg, hgo, bindOk, bindErr] at h
    | ok u =>
      cases ht : p.title with
      | error e => simp [navigate_try, hg, hgo, ht, bindOk, bindErr] at h
      | ok t =>
        simp [navigate_try, hg, hgo, ht, bindOk, bindErr, attrNavigate, pureOk] at h
        subst h
        rfl

theorem click_try_shape (w : ToolWorld) (i : String) (r : ExecutionAction)
    (h : click_try w i = .ok r) :
    ∃ p ar t, w.getPage = .ok p ∧ p.act = .ok ar ∧ p.title = .ok t ∧
      r = { current_url := some p.urlAfter, page_title := some t,
            success := ar.success, action_type := "click", instruction := some i,
            execution_details := ar.message, page_changed := (p.url != p.urlAfter),
            result_data := some (.act ar), action_taken := ar.action } := by
  cases hg : w.getPage with
  | error e => simp [click_try, hg, bindErr] at h
  | ok p =>
    cases ha : p.act with
    | error e => simp [click_try, hg, ha, bindOk, bindErr] at h
    | ok ar =>
      cases ht : p.title with
      | error e => simp [click_try, hg, ha, ht, bindOk, bindErr] at h
      | ok t =>
        refine ⟨p, ar, t, rfl, ha, ht, ?_⟩
        simp [click_try, hg, ha, ht, bindOk, bindErr, attrClick, pureOk,
          ActionType.value] at h
        subst h
        rfl

theorem click_handler_shape (w : ToolWorld) (i : String) (e : PyExc)
    (r : ExecutionAction) (h : click_handler w i e = .ok r) :
    ∃ p t, w.getPageRetry = .ok p ∧ p.title = .ok t ∧
      r = { current_url := some p.url, page_title := some t, success := false,
            action_type := "click", instruction := some i,
            execution_details := some e.msg, page_changed := false,
            result_data := none, action_taken := none } := by
  cases hg : w.getPageRetry with
  | error e2 => simp [click_handler, hg, bindErr] at h
  | ok p =>
    cases ht : p.title with
    | error e2 => simp [click_handler, hg, ht, bindOk, bindErr] at h
    | ok t =>
      refine ⟨p, t, rfl, ht, ?_⟩
      simp [click_handler, hg, ht, bindOk, bindErr, attrClick, pureOk,
        ActionType.value] at h
      subst h
      rfl

theorem type_try_shape (w : ToolWorld) (i : String) (r : ExecutionAction)
    (h : type_try w i = .ok r) :
    ∃ p ar t, w.getPage = .ok p ∧ p.act = .ok ar ∧ p.title = .ok t ∧
      r = { current_url := some p.urlAfter, page_title := some t,
            success := ar.success, action_type := "type", instruction := some i,
            execution_details := ar.message, page_changed := false,
            result_data := some (.act ar), action_taken := ar.action } := by
  cases hg : w.getPage with
  | error e => simp [type_try, hg, bindErr] at h
  | ok p =>
    cases ha : p.act with
    | error e => simp [type_try, hg, ha, bindOk, bindErr] at h
    | ok ar =>
      cases ht : p.title with
      | error e => simp [type_try, hg, ha, ht, bindOk, bindErr] at h
      | ok t =>
        refine ⟨p, ar, t, rfl, ha, ht, ?_⟩
        simp [type_try, hg, ha, ht, bindOk, bindErr, attrType, pureOk,
          ActionType.value] at h
        subst h
        rfl

theorem type_handler_shape (w : ToolWorld) (i : String) (e : PyExc)
    (r : ExecutionAction) (h : type_handler w i e = .ok r) :
    ∃ p t, w.getPageRetry = .ok p ∧ p.title = .ok t ∧
      r = { current_url := some p.url, page_title := some t, success := false,
            action_type := "type", instruction := some i,
            execution_details := some e.msg, page_changed := false,
            result_data := none, action_taken := none } := by
  cases hg : w.getPageRetry with
  | error e2 => simp [type_handler, hg, bindErr] at h
  | ok p =>
    cases ht : p.title with
    | error e2 => simp [type_handler, hg, ht, bindOk, bindErr] at h
    | ok t =>
      refine ⟨p, t, rfl, ht, ?_⟩
      simp [type_handler, hg, ht, bindOk, bindErr, attrType, pureOk,
        ActionType.value] at h
      subst h
      rfl

/-- C5 counterexample: navigate_to fails while the page handle is perfectly
reachable (get_page returns it and its title call succeeds), yet the failure
ActionResult leaves current_url and page_title absent. -/
theorem C5_counterexample :
    worldGotoFails.getPage = .ok pageGotoFails ∧
    pageGotoFails.title = .ok "X" ∧
    navigate_to worldGotoFails "https://x.com" = .ok navFailRes ∧
    navFailRes.success = false ∧
    navFailRes.current_url = none ∧
    navFailRes.page_title = none := by
  exact ⟨rfl, rfl, rfl, rfl, rfl, rfl⟩

/-- C5 amended: click and type results, success or failure, always carry a
present current_url and page_title (their failure branch re-obtains the page
and re-raises when it cannot); navigate failure results always leave
current_url and page_title absent, even when the page is reachable. -/
theorem C5_amended :
    (∀ (w : ToolWorld) (url : String) (r : ExecutionAction),
        navigate_to w url = .ok r → r.success = false →
        r.current_url = none ∧ r.page_title = none) ∧
    (∀ (w : ToolWorld) (i : String) (r : ExecutionAction),
        click_element w i = .ok r →
        r.current_url.isSome = true ∧ r.page_title.isSome = true) ∧
    (∀ (w : ToolWorld) (i : String) (r : ExecutionAction),
        type_text w i = .ok r →
        r.current_url.isSome = true ∧ r.page_title.isSome = true) := by
  refine ⟨fun w url r h hs => ?_, fun w i r h => ?_, fun w i r h => ?_⟩
  · unfold navigate_to at h
    cases htr : navigate_try w url with
    | ok r2 =>
      rw [htr] at h
      simp at h
      have hs2 := navigate_try_success w url r2 htr
      rw [h] at hs2
      rw [hs2] at hs
      exact absurd hs (by simp)
    | error e =>
      rw [htr] at h
      simp [navigate_handler_eq] at h
      subst h
      exact ⟨rfl, rfl⟩
  · unfold click_element at h
    cases htr : click_try w i with
    | ok r2 =>
      rw [htr] at h
      simp at h
      obtain ⟨p, ar, t, _, _, _, hr⟩ := click_try_shape w i r2 htr
      rw [← h, hr]
      exact ⟨rfl, rfl⟩
    | error e =>
      rw [htr] at h
      simp at h
      obtain ⟨p, t, _, _, hr⟩ := click_handler_shape w i e r h
      rw [hr]
      exact ⟨rfl, rfl⟩
  · unfold type_text at h
    cases htr : type_try w i with
    | ok r2 =>
      rw [htr] at h
      simp at h
      obtain ⟨p, ar, t, _, _, _, hr⟩ := type_try_shape w i r2 htr
      rw [← h, hr]
      exact ⟨rfl, rfl⟩
    | error e =>
      rw [htr] at h
      simp at h
      obtain ⟨p, t, _, _, hr⟩ := type_handler_shape w i e r h
      rw [hr]
      exact ⟨rfl, rfl⟩

/-- C5 witness: the amended statement applied at concrete worlds — a failing
navigate with a reachable page, and successful click and type calls. -/
theorem C5_witness :
    (navFailRes.current_url = none ∧ navFailRes.page_title = none) ∧
    (clickOkRes.current_url.isSome = true ∧ clickOkRes.page_title.isSome = true) ∧
    (typeOkRes.current_url.isSome = true ∧ typeOkRes.page_title.isSome = true) := by
  refine ⟨C5_amended.1 worldGotoFails "https://x.com" navFailRes rfl rfl,
          C5_amended.2.1 worldBenign "click the submit button" clickOkRes rfl,
          C5_amended.2.2 worldBenign "type hello into the search box" typeOkRes rfl⟩

/-- C6: whenever the click call completes (page obtained, act returned, title
answered), the result reports page_changed as the inequality of the URL read
before and after the act call, with success copied from the library whatever
it reports; and whenever the try block raised, any returned result has
page_changed false. -/
theorem C6_click_page_changed :
    (∀ (w : ToolWorld) (i : String) (p : Page) (ar : ActResult) (t : String),
        w.getPage = .ok p → p.act = .ok ar → p.title = .ok t →
        click_element w i = .ok
          { current_url := some p.urlAfter, page_title := some t,
            success := ar.success, action_type := "click", instruction := some i,
            execution_details := ar.message, page_changed := (p.url != p.urlAfter),
            result_data := some (.act ar), action_taken := ar.action }) ∧
    (∀ (w : ToolWorld) (i : String) (e : PyExc) (r : ExecutionAction),
        click_try w i = .error e → click_element w i = .ok r →
        r.page_changed = false) := by
  constructor
  · intro w i p ar t hg ha ht
    have h1 : click_try w i = .ok
        { current_url := some p.urlAfter, page_title := some t,
          success := ar.success, action_type := "click", instruction := some i,
          execution_details := ar.message, page_changed := (p.url != p.urlAfter),
          result_data := some (.act ar), action_taken := ar.action } := by
      simp [click_try, hg, ha, ht, bindOk, bindErr, attrClick, pureOk,
        ActionType.value]
    unfold click_element
    rw [h1]
  · intro w i e r htr h
    unfold click_element at h
    rw [htr] at h
    simp at h
    obtain ⟨p, t, _, _, hr⟩ := click_handler_shape w i e r h
    rw [hr]

/-- C6 witness: a click whose act call navigates reports page_changed true with
the library success flag copied, and a click whose act call raises returns a
result with page_changed false. -/
theorem C6_witness :
    click_element worldClickNav "click the navigation link" = .ok
      { current_url := some "https://a.com/done", page_title := some "Done",
        success := true, action_type := "click",
        instruction := some "click the navigation link",
        execution_details := some "Navigation occurred", page_changed := true,
        result_data := some (.act clickNavAct), action_taken := some "click link" } ∧
    clickFailResult.page_changed = false := by
  constructor
  · exact C6_click_page_changed.1 worldClickNav "click the navigation link"
      pageClickNav clickNavAct "Done" rfl rfl rfl
  · exact C6_click_page_changed.2 worldActFails "click the submit button"
      (.libError "act timeout") clickFailResult rfl rfl
